import Mathlib

/-!
Shallow embedding of the token-verification core of the gin-jwt-cognito
middleware (src/auth.go), together with theorems settling the frozen claims
about its specification.

Modelling conventions:
- Go byte slices are lists of naturals (each below 256 for decoded bytes).
- Go maps are association lists; indexing a map that lacks the key yields the
  zero value, as in Go, and is modelled by getD with the zero value.
- Go errors are their message strings; functions returning (T, error) become
  Except String T or a dedicated outcome type.
- A Go panic is a dedicated constructor of the outcome type, so that the
  question whether a run panics is a provable proposition.
- The ambient system clock (time.Now, read directly by validateExpired in the
  source) is an explicit integer parameter named now, threaded to every
  function whose Go original reads the clock.
- JSON numbers (Go float64) are modelled as rationals; the Go conversion
  int64(x), which truncates toward zero, is Int.tdiv on numerator and
  denominator.
-/

instance {α β : Type} [DecidableEq α] [DecidableEq β] : DecidableEq (Except α β) := fun x y =>
  match x, y with
  | Except.error a, Except.error b =>
    if h : a = b then isTrue (by rw [h]) else isFalse (fun hc => h (Except.error.inj hc))
  | Except.error _, Except.ok _ => isFalse (fun hc => Except.noConfusion hc)
  | Except.ok _, Except.error _ => isFalse (fun hc => Except.noConfusion hc)
  | Except.ok a, Except.ok b =>
    if h : a = b then isTrue (by rw [h]) else isFalse (fun hc => h (Except.ok.inj hc))

/-- Big-endian interpretation of a byte string as an unsigned integer, as done
by big.Int.SetBytes in convertKey. -/
def beBytesToNat (bs : List Nat) : Nat :=
  bs.foldl (fun a b => a * 256 + b) 0

/-- Big-endian 32-bit read of the first four bytes, as done by
binary.BigEndian.Uint32 in convertKey (the source guarantees at least four
bytes are present when it is called). -/
def beUint32 (bs : List Nat) : Nat :=
  beBytesToNat (bs.take 4)

/-- Value of one base64url alphabet character, none for a character outside
the alphabet. -/
def b64urlCharVal (c : Char) : Option Nat :=
  if 'A' ≤ c ∧ c ≤ 'Z' then some (c.toNat - 65)
  else if 'a' ≤ c ∧ c ≤ 'z' then some (c.toNat - 97 + 26)
  else if '0' ≤ c ∧ c ≤ '9' then some (c.toNat - 48 + 52)
  else if c = '-' then some 62
  else if c = '_' then some 63
  else none

/-- Unpadded base64url decoding of a character list, following Go
base64.RawURLEncoding.DecodeString: quanta of four characters give three
bytes, a final quantum of two or three characters gives one or two bytes,
a final quantum of one character or an out-of-alphabet character is an
error (none), and leftover trailing bits are discarded. -/
def b64urlDecodeAux : List Char → Option (List Nat)
  | [] => some []
  | [_] => none
  | [c1, c2] => do
      let v1 ← b64urlCharVal c1
      let v2 ← b64urlCharVal c2
      pure [v1 * 4 + v2 / 16]
  | [c1, c2, c3] => do
      let v1 ← b64urlCharVal c1
      let v2 ← b64urlCharVal c2
      let v3 ← b64urlCharVal c3
      pure [v1 * 4 + v2 / 16, (v2 % 16) * 16 + v3 / 4]
  | c1 :: c2 :: c3 :: c4 :: rest => do
      let v1 ← b64urlCharVal c1
      let v2 ← b64urlCharVal c2
      let v3 ← b64urlCharVal c3
      let v4 ← b64urlCharVal c4
      let bs ← b64urlDecodeAux rest
      pure ((v1 * 4 + v2 / 16) :: ((v2 % 16) * 16 + v3 / 4) :: ((v3 % 4) * 64 + v4) :: bs)

/-- Unpadded base64url decoding of a string. -/
def b64urlDecode (s : String) : Option (List Nat) :=
  b64urlDecodeAux s.data

/-- RSA public key as built by convertKey: modulus N (big.Int) and exponent E
(int). -/
structure RSAPublicKey where
  N : Nat
  E : Nat
deriving DecidableEq

/-- Result of convertKey: either the key, or a Go panic (the source calls
panic(err) on a base64 decoding error). -/
inductive ConvertResult
  | ok (k : RSAPublicKey)
  | panicked (msg : String)
deriving DecidableEq

/-- Pure core of convertKey, acting on the decoded byte strings: an exponent
shorter than four bytes is zero-left-padded to four bytes, then the first four
bytes are read big-endian; the modulus bytes are read big-endian directly. -/
def convertKeyBytes (decodedE decodedN : List Nat) : RSAPublicKey :=
  let e := if decodedE.length < 4
    then List.replicate (4 - decodedE.length) 0 ++ decodedE
    else decodedE
  { N := beBytesToNat decodedN, E := beUint32 e }

/-- Embedding of convertKey (src/auth.go lines 315-335): decode the two
base64url strings, panicking on a malformed one, then build the key from the
decoded bytes. -/
def convertKey (rawE rawN : String) : ConvertResult :=
  match b64urlDecode rawE with
  | none => ConvertResult.panicked "illegal base64 data"
  | some de =>
    match b64urlDecode rawN with
    | none => ConvertResult.panicked "illegal base64 data"
    | some dn => ConvertResult.ok (convertKeyBytes de dn)

/-- Embedding of the JWKKey struct: all fields are strings; the Go zero value
has every field empty. -/
structure JWKKey where
  Alg : String
  E : String
  Kid : String
  Kty : String
  N : String
  Use : String
deriving DecidableEq

/-- Zero value of JWKKey, produced by indexing the JWK map at an absent key. -/
def zeroJWKKey : JWKKey :=
  { Alg := "", E := "", Kid := "", Kty := "", N := "", Use := "" }

/-- Go map indexing mw.JWK[kidStr]: the entry when present, the zero value
when absent. -/
def jwkLookup (jwk : List (String × JWKKey)) (kid : String) : JWKKey :=
  (List.lookup kid jwk).getD zeroJWKKey

/-- Whether the signing method named by the alg header is an instance of
jwt-go SigningMethodRSA; the library registers exactly RS256, RS384 and RS512
with that type, so the type assertion in parse succeeds exactly for them. -/
def isRSAMethod (alg : String) : Bool :=
  alg = "RS256" || alg = "RS384" || alg = "RS512"

/-- JSON claim values as decoded by the library into MapClaims: strings,
numbers (float64, modelled as rationals) and booleans. -/
inductive ClaimValue
  | str (s : String)
  | num (q : ℚ)
  | boolean (b : Bool)
deriving DecidableEq

/-- ClaimSet: the decoded token body, a map from claim name to value,
modelled as an association list with unique keys. -/
abbrev Claims : Type := List (String × ClaimValue)

/-- Go map read claims[key]. -/
def lookupClaim (c : Claims) (k : String) : Option ClaimValue :=
  List.lookup k c

/-- Result of the keyfunc closure passed to jwt2.Parse (src/auth.go lines
204-223): a reconstructed public key, the empty-string non-key returned when
the kid header is absent or not a string, the unexpected-signing-method
error, or a panic escaping from convertKey. -/
inductive KeyfuncResult
  | pubKey (k : RSAPublicKey)
  | emptyString
  | err (msg : String)
  | panicked (msg : String)
deriving DecidableEq

/-- Embedding of the keyfunc closure (src/auth.go lines 204-223): reject
non-RSA signing methods; for a string kid, index the JWK map (zero value when
absent) and reconstruct the key with convertKey; otherwise return the empty
string as the key. -/
def keyfunc (jwk : List (String × JWKKey)) (alg : String) (kid : Option ClaimValue) : KeyfuncResult :=
  if isRSAMethod alg = false then
    KeyfuncResult.err ("unexpected signing method: " ++ alg)
  else
    match kid with
    | some (ClaimValue.str kidStr) =>
      let key := jwkLookup jwk kidStr
      match convertKey key.E key.N with
      | ConvertResult.ok k => KeyfuncResult.pubKey k
      | ConvertResult.panicked m => KeyfuncResult.panicked m
    | _ => KeyfuncResult.emptyString

/-- Go conversion int64(x) of a float64, which truncates toward zero,
expressed on the rational model as truncating division of numerator by
denominator. -/
def goInt64 (q : ℚ) : ℤ :=
  Int.tdiv q.num q.den

/-- Embedding of validateExpired (src/auth.go lines 299-312): an exp claim
that is a number passes exactly when its int64 truncation is strictly above
the current time and otherwise falls through to the cannot-parse error, a
present non-numeric exp gives the cannot-parse error, and an absent exp gives
the token-is-expired error. The source reads the clock with time.Now()
directly; that reading is the parameter now. -/
def validateExpired (claims : Claims) (now : ℤ) : Except String Unit :=
  match lookupClaim claims "exp" with
  | some (ClaimValue.num q) =>
      if now < goInt64 q then Except.ok ()
      else Except.error "cannot parse token exp"
  | some _ => Except.error "cannot parse token exp"
  | none => Except.error "token is expired"

/-- Error message of validateClaimItem, following the Go formatting of a
string slice with the percent-v verb. -/
def claimItemErr (key : String) (keyShouldBe : List String) : String :=
  key ++ " does not match any of valid values: [" ++ String.intercalate " " keyShouldBe ++ "]"

/-- Embedding of validateClaimItem (src/auth.go lines 286-297): the claim
must be present, a string, and equal to one of the allowed values. -/
def validateClaimItem (key : String) (keyShouldBe : List String) (claims : Claims) : Except String Unit :=
  match lookupClaim claims key with
  | some (ClaimValue.str valStr) =>
      if keyShouldBe.contains valStr then Except.ok ()
      else Except.error (claimItemErr key keyShouldBe)
  | some _ => Except.error (claimItemErr key keyShouldBe)
  | none => Except.error (claimItemErr key keyShouldBe)

/-- Embedding of the validateTokenUse closure inside validateAWSJwtClaims:
the token_use claim must be present, a string, and equal to id or access. -/
def validateTokenUse (claims : Claims) : Except String Unit :=
  match lookupClaim claims "token_use" with
  | some (ClaimValue.str s) =>
      if s = "id" || s = "access" then Except.ok ()
      else Except.error "token_use should be id or access"
  | some _ => Except.error "token_use should be id or access"
  | none => Except.error "token_use should be id or access"

/-- Expected issuer string built by validateAWSJwtClaims from region and user
pool id. -/
def issShouldBe (region userPoolID : String) : String :=
  "https://cognito-idp." ++ region ++ ".amazonaws.com/" ++ userPoolID

/-- Embedding of validateAWSJwtClaims (src/auth.go lines 250-284): issuer
check, then token_use check, then expiry check, failing fast on the first
error. -/
def validateAWSJwtClaims (claims : Claims) (region userPoolID : String) (now : ℤ) : Except String Unit :=
  match validateClaimItem "iss" [issShouldBe region userPoolID] claims with
  | Except.error e => Except.error e
  | Except.ok _ =>
    match validateTokenUse claims with
    | Except.error e => Except.error e
    | Except.ok _ => validateExpired claims now

/-- Reading a claim in state-passing style: the claim-set state is returned
along with the value, making it visible that a read does not change it. -/
def lookupClaimM (c : Claims) (k : String) : Option ClaimValue × Claims :=
  (List.lookup k c, c)

/-- State-passing form of validateExpired: the claim set is threaded through
every map access and returned, so mutation (or its absence) is observable. -/
def validateExpiredM (claims : Claims) (now : ℤ) : Except String Unit × Claims :=
  match lookupClaimM claims "exp" with
  | (some (ClaimValue.num q), c1) =>
      (if now < goInt64 q then Except.ok ()
       else Except.error "cannot parse token exp", c1)
  | (some _, c1) => (Except.error "cannot parse token exp", c1)
  | (none, c1) => (Except.error "token is expired", c1)

/-- State-passing form of validateClaimItem. -/
def validateClaimItemM (key : String) (keyShouldBe : List String) (claims : Claims) : Except String Unit × Claims :=
  match lookupClaimM claims key with
  | (some (ClaimValue.str valStr), c1) =>
      (if keyShouldBe.contains valStr then Except.ok ()
       else Except.error (claimItemErr key keyShouldBe), c1)
  | (some _, c1) => (Except.error (claimItemErr key keyShouldBe), c1)
  | (none, c1) => (Except.error (claimItemErr key keyShouldBe), c1)

/-- State-passing form of validateTokenUse. -/
def validateTokenUseM (claims : Claims) : Except String Unit × Claims :=
  match lookupClaimM claims "token_use" with
  | (some (ClaimValue.str s), c1) =>
      (if s = "id" || s = "access" then Except.ok ()
       else Except.error "token_use should be id or access", c1)
  | (some _, c1) => (Except.error "token_use should be id or access", c1)
  | (none, c1) => (Except.error "token_use should be id or access", c1)

/-- State-passing form of validateAWSJwtClaims, threading the claim set
through the three checks in source order. -/
def validateAWSJwtClaimsM (claims : Claims) (region userPoolID : String) (now : ℤ) : Except String Unit × Claims :=
  match validateClaimItemM "iss" [issShouldBe region userPoolID] claims with
  | (Except.error e, c1) => (Except.error e, c1)
  | (Except.ok _, c1) =>
    match validateTokenUseM c1 with
    | (Except.error e, c2) => (Except.error e, c2)
    | (Except.ok _, c2) => validateExpiredM c2 now

/-- Decoded token as handed to the verification pipeline: the alg and kid
header entries, the claim set, and whether the RSA signature over the token
verifies under the key the keyfunc resolves for it. Signature verification
itself is cryptographic and is abstracted by the sigValid field. -/
structure TokenData where
  alg : String
  kid : Option ClaimValue
  claims : Claims
  sigValid : Bool
deriving DecidableEq

/-- Outcome of parse: the accepted token claims, an error return, or a
panic. -/
inductive ParseOutcome
  | ok (claims : Claims)
  | err (msg : String)
  | panicked (msg : String)
deriving DecidableEq

/-- Whether the pattern occurs as a substring, as strings.Contains does. -/
def containsSub (s pat : String) : Bool :=
  (List.range (s.data.length + 1)).any (fun i => List.isPrefixOf pat.data (s.data.drop i))

/-- Embedding of the tail of parse (src/auth.go lines 229-247), entered when
jwt2.Parse returned without error: read the iss claim, failing when absent
and panicking on the unchecked string type assertion when it is not a
string; when the issuer contains the cognito-idp marker, run
validateAWSJwtClaims; accept otherwise. -/
def parseAfterDecode (claims : Claims) (region userPoolID : String) (now : ℤ) : ParseOutcome :=
  match lookupClaim claims "iss" with
  | none => ParseOutcome.err "token does not contain issuer"
  | some (ClaimValue.str issStr) =>
    if containsSub issStr "cognito-idp" then
      match validateAWSJwtClaims claims region userPoolID now with
      | Except.error e => ParseOutcome.err e
      | Except.ok _ => ParseOutcome.ok claims
    else ParseOutcome.ok claims
  | some _ => ParseOutcome.panicked "interface conversion: interface is not string"

/-- Embedding of parse on a decoded token (src/auth.go lines 201-247). The
jwt2.Parse step is modelled after the specification of the Token Verifier:
run the keyfunc, then verify the signature with the resolved key (a string
key, returned when the kid header is absent or not a string, never verifies
and yields the invalid-key-type error), and on success run the tail of
parse. Errors and panics from the keyfunc propagate. -/
def parseTok (jwk : List (String × JWKKey)) (region userPoolID : String) (now : ℤ) (tok : TokenData) : ParseOutcome :=
  match keyfunc jwk tok.alg tok.kid with
  | KeyfuncResult.panicked m => ParseOutcome.panicked m
  | KeyfuncResult.err m => ParseOutcome.err m
  | KeyfuncResult.emptyString => ParseOutcome.err "key is of invalid type"
  | KeyfuncResult.pubKey _ =>
    if tok.sigValid then parseAfterDecode tok.claims region userPoolID now
    else ParseOutcome.err "crypto/rsa: verification error"

/-- Splitting a character off a list on a separator, as strings.Split does
with a single-character separator: the result is never empty. -/
def splitOnCharAux (sep : Char) : List Char → List Char → List String
  | [], acc => [String.mk acc.reverse]
  | c :: rest, acc =>
    if c = sep then String.mk acc.reverse :: splitOnCharAux sep rest []
    else splitOnCharAux sep rest (c :: acc)

/-- Go strings.Split with a single-character separator. -/
def goSplit (s : String) (sep : Char) : List String :=
  splitOnCharAux sep s.data []

/-- Configured clock functions, distinguished only up to identity: the
middleware stores time.Now or a user-supplied clock, and MiddlewareInit only
tests the field against nil. -/
inductive ClockFn
  | timeNow
  | custom (idx : Nat)
deriving DecidableEq

/-- Configured rejection callbacks, distinguished only up to identity. -/
inductive RejectFn
  | defaultJSON
  | custom (idx : Nat)
deriving DecidableEq

/-- Embedding of the AuthMiddleware struct (src/auth.go lines 49-79). The
nil-able function fields become options; time.Duration is nanoseconds. -/
structure AuthMiddleware where
  Unauthorized : Option RejectFn
  Timeout : Nat
  TokenLookup : String
  TimeFunc : Option ClockFn
  Realm : String
  VerifyIssuer : Bool
  Region : String
  UserPoolID : String
  Iss : String
  JWK : List (String × JWKKey)
deriving DecidableEq

/-- Header name constant AuthorizationHeader of the source. -/
def AuthorizationHeader : String := "Authentication"

/-- One hour in nanoseconds, the value of time.Hour. -/
def timeHour : Nat := 3600000000000

/-- Embedding of MiddlewareInit (src/auth.go lines 88-112): fill each of the
five defaultable fields exactly when it holds its zero value, in source
order. -/
def MiddlewareInit (mw : AuthMiddleware) : AuthMiddleware :=
  let mw1 := if mw.TokenLookup = "" then { mw with TokenLookup := "header:" ++ AuthorizationHeader } else mw
  let mw2 := if mw1.Timeout = 0 then { mw1 with Timeout := timeHour } else mw1
  let mw3 := match mw2.TimeFunc with
    | none => { mw2 with TimeFunc := some ClockFn.timeNow }
    | some _ => mw2
  let mw4 := match mw3.Unauthorized with
    | none => { mw3 with Unauthorized := some RejectFn.defaultJSON }
    | some _ => mw3
  if mw4.Realm = "" then { mw4 with Realm := "gin jwt" } else mw4

/-- Embedding of parse on the raw token string: the library decoding of the
compact serialization is an explicit parameter dec (malformed tokens yield
its error), after which the decoded token runs through parseTok. -/
def parse (dec : String → Except String TokenData) (mw : AuthMiddleware) (now : ℤ) (tokenStr : String) : ParseOutcome :=
  match dec tokenStr with
  | Except.error m => ParseOutcome.err m
  | Except.ok tok => parseTok mw.JWK mw.Region mw.UserPoolID now tok

/-- Outcome of one request through middlewareImpl: the downstream handler is
invoked with the token attached, or the request is rejected with a status
code and message, or the handler goroutine panics. -/
inductive GateOutcome
  | proceed (claims : Claims)
  | reject (code : Nat) (msg : String)
  | panicked (msg : String)
deriving DecidableEq

/-- Go http.Header.Get: the value of the header, empty string when absent
(header-name canonicalization is abstracted away). -/
def headerGet (headers : List (String × String)) (k : String) : String :=
  (List.lookup k headers).getD ""

/-- Embedding of jwtFromHeader (src/auth.go lines 144-151). -/
def jwtFromHeader (headers : List (String × String)) (key : String) : Except String String :=
  let authHeader := headerGet headers key
  if authHeader = "" then Except.error "auth header empty"
  else Except.ok authHeader

/-- Conversion of a parse outcome to the gate outcome exactly as the tail of
middlewareImpl does: errors become a 401 rejection carrying the error
message, success attaches the token and calls the next handler. -/
def parseToGate (r : ParseOutcome) : GateOutcome :=
  match r with
  | ParseOutcome.ok cl => GateOutcome.proceed cl
  | ParseOutcome.err m => GateOutcome.reject 401 m
  | ParseOutcome.panicked m => GateOutcome.panicked m

/-- Embedding of middlewareImpl (src/auth.go lines 114-142): split
TokenLookup on the colon; when the first part is the header keyword, extract
the token from the header named by the second part, which panics with an
index-out-of-range fault when there is no second part; extraction errors are
rejected with 401, otherwise the token string (the empty string when the
lookup scheme is unrecognized) is parsed. -/
def middlewareImpl (dec : String → Except String TokenData) (mw : AuthMiddleware) (now : ℤ) (headers : List (String × String)) : GateOutcome :=
  match goSplit mw.TokenLookup ':' with
  | [] => GateOutcome.panicked "runtime error: index out of range"
  | p0 :: rest =>
    if p0 = "header" then
      match rest with
      | [] => GateOutcome.panicked "runtime error: index out of range"
      | key :: _ =>
        match jwtFromHeader headers key with
        | Except.error e => GateOutcome.reject 401 e
        | Except.ok tokenStr => parseToGate (parse dec mw now tokenStr)
    else parseToGate (parse dec mw now "")

/-- Library decoder that fails on every token string, standing in for
jwt2.Parse on input that is not a compact JOSE serialization. -/
def decFail : String → Except String TokenData :=
  fun _ => Except.error "token contains an invalid number of segments"

/-- Middleware instance with the default header token lookup and concrete
identifiers, used to evaluate theorems on concrete inputs. -/
def mwDefault : AuthMiddleware :=
  { Unauthorized := none, Timeout := 0, TokenLookup := "header:Authentication",
    TimeFunc := none, Realm := "", VerifyIssuer := false, Region := "r",
    UserPoolID := "u", Iss := "i", JWK := [] }

/-- Middleware instance whose TokenLookup lacks the colon separator. -/
def mwHeaderNoColon : AuthMiddleware :=
  { mwDefault with TokenLookup := "header" }

/-- Fully configured middleware instance in which every defaultable field is
already set. -/
def mwFull : AuthMiddleware :=
  { Unauthorized := some (RejectFn.custom 1), Timeout := 5,
    TokenLookup := "header:X", TimeFunc := some (ClockFn.custom 2),
    Realm := "myrealm", VerifyIssuer := true, Region := "eu",
    UserPoolID := "pool", Iss := "issuer", JWK := [] }

/-- Signature-valid token from a foreign issuer whose claims would fail every
cognito check: wrong issuer, wrong token_use, expired exp. -/
def tokForeign : TokenData :=
  { alg := "RS256", kid := some (ClaimValue.str "kid1"),
    claims := [("iss", ClaimValue.str "https://example.com/pool"),
               ("exp", ClaimValue.num 0),
               ("token_use", ClaimValue.str "bogus")],
    sigValid := true }

/-- Claim set that is valid at time 999 and expired at time 1000. -/
def claimsBoundary : Claims :=
  [("iss", ClaimValue.str (issShouldBe "r" "u")),
   ("token_use", ClaimValue.str "id"),
   ("exp", ClaimValue.num 1000)]

/-- The rational 201/2 = 100.5, an expiry lying strictly between the whole
seconds 100 and 101. -/
def qEx : ℚ := (201 : ℚ) / 2

/-- Padding a big-endian byte string with leading zero bytes does not change
its value. -/
theorem beBytesToNat_replicate_zero (k : Nat) (bs : List Nat) :
    beBytesToNat (List.replicate k 0 ++ bs) = beBytesToNat bs := by
  induction k with
  | zero => rfl
  | succ m ih =>
    simpa [List.replicate, beBytesToNat] using ih

/-- State-passing expiry validation returns the pure result and the unchanged
claim set. -/
theorem validateExpiredM_eq (c : Claims) (n : ℤ) :
    validateExpiredM c n = (validateExpired c n, c) := by
  unfold validateExpiredM validateExpired lookupClaimM lookupClaim
  cases h : List.lookup "exp" c with
  | none => rfl
  | some v => cases v <;> rfl

/-- State-passing claim-item validation returns the pure result and the
unchanged claim set. -/
theorem validateClaimItemM_eq (k : String) (ks : List String) (c : Claims) :
    validateClaimItemM k ks c = (validateClaimItem k ks c, c) := by
  unfold validateClaimItemM validateClaimItem lookupClaimM lookupClaim
  cases h : List.lookup k c with
  | none => rfl
  | some v => cases v <;> rfl

/-- State-passing token-use validation returns the pure result and the
unchanged claim set. -/
theorem validateTokenUseM_eq (c : Claims) :
    validateTokenUseM c = (validateTokenUse c, c) := by
  unfold validateTokenUseM validateTokenUse lookupClaimM lookupClaim
  cases h : List.lookup "token_use" c with
  | none => rfl
  | some v => cases v <;> rfl

/-- State-passing cognito claim validation returns the pure result and the
unchanged claim set: the source only reads the claims map. -/
theorem validateAWSJwtClaimsM_eq (c : Claims) (r u : String) (n : ℤ) :
    validateAWSJwtClaimsM c r u n = (validateAWSJwtClaims c r u n, c) := by
  unfold validateAWSJwtClaimsM validateAWSJwtClaims
  rw [validateClaimItemM_eq]
  cases validateClaimItem "iss" [issShouldBe r u] c with
  | error e => rfl
  | ok _ =>
    dsimp only
    rw [validateTokenUseM_eq]
    cases validateTokenUse c with
    | error e => rfl
    | ok _ =>
      dsimp only
      rw [validateExpiredM_eq]

/-- Truncation toward zero coincides with the floor on nonnegative
rationals. -/
theorem goInt64_eq_floor (q : ℚ) (h : 0 ≤ q) : goInt64 q = ⌊q⌋ := by
  unfold goInt64
  rw [Int.tdiv_eq_ediv (Rat.num_nonneg.mpr h) (Int.natCast_nonneg _)]
  exact Rat.floor_def.symm

/-- C7: public key reconstruction zero-left-pads every decoded exponent byte
string shorter than 4 bytes to exactly 4 bytes before interpreting it as a
big-endian unsigned integer (which leaves the value unchanged), and
interprets the decoded modulus bytes directly as an unsigned big-endian
integer with no length normalization. -/
theorem convertKey_pads_exponent (eb nb : List Nat) (h : eb.length < 4) :
    (convertKeyBytes eb nb).E = beBytesToNat (List.replicate (4 - eb.length) 0 ++ eb)
    ∧ (List.replicate (4 - eb.length) 0 ++ eb).length = 4
    ∧ (convertKeyBytes eb nb).E = beBytesToNat eb
    ∧ (convertKeyBytes eb nb).N = beBytesToNat nb := by
  have hlen : (List.replicate (4 - eb.length) 0 ++ eb).length = 4 := by
    simp [List.length_append, List.length_replicate, Nat.sub_add_cancel h.le]
  have hE : (convertKeyBytes eb nb).E = beBytesToNat (List.replicate (4 - eb.length) 0 ++ eb) := by
    unfold convertKeyBytes beUint32
    rw [if_pos h]
    dsimp only
    rw [List.take_of_length_le (le_of_eq hlen)]
  refine ⟨hE, hlen, ?_, rfl⟩
  rw [hE, beBytesToNat_replicate_zero]

/-- Witness for C7 at the concrete exponent bytes [1, 0] and modulus byte
[5]. -/
theorem convertKey_pads_exponent_witness :
    ([1, 0] : List Nat).length < 4
    ∧ (convertKeyBytes [1, 0] [5]).E = beBytesToNat [1, 0]
    ∧ (convertKeyBytes [1, 0] [5]).N = beBytesToNat [5] := by
  have h := convertKey_pads_exponent [1, 0] [5] (by decide)
  exact ⟨by decide, h.2.2.1, h.2.2.2⟩

/-- C8 counterexample: the result of validateAWSJwtClaims also depends on the
ambient clock reading taken inside validateExpired, so two calls with the
same claim set, region and user-pool identifier can differ when the clock
has advanced past the exp claim between the calls. -/
theorem validateAWSJwtClaims_clock_dependent :
    validateAWSJwtClaims claimsBoundary "r" "u" 999 = Except.ok ()
    ∧ validateAWSJwtClaims claimsBoundary "r" "u" 1000 = Except.error "cannot parse token exp"
    ∧ validateAWSJwtClaims claimsBoundary "r" "u" 999 ≠ validateAWSJwtClaims claimsBoundary "r" "u" 1000 := by
  refine ⟨by decide, by decide, by decide⟩

/-- C8 as amended: at one fixed clock reading, validateAWSJwtClaims is
deterministic and does not mutate the claim set: in state-passing form a
first call returns the claim set unchanged, and a second call on the
returned claim set at the same clock reading yields the same result and the
same unchanged claim set. -/
theorem validateAWSJwtClaims_idempotent_same_clock (c : Claims) (r u : String) (n : ℤ) :
    (validateAWSJwtClaimsM c r u n).2 = c
    ∧ (validateAWSJwtClaimsM (validateAWSJwtClaimsM c r u n).2 r u n).1 = (validateAWSJwtClaimsM c r u n).1
    ∧ (validateAWSJwtClaimsM (validateAWSJwtClaimsM c r u n).2 r u n).2 = c := by
  simp [validateAWSJwtClaimsM_eq]

/-- C9: a numeric exp claim is truncated toward zero before the comparison
with the current time, so an expiry lying strictly between the current whole
second and the next is rejected. -/
theorem validateExpired_truncates (claims : Claims) (q : ℚ) (now : ℤ)
    (hq : lookupClaim claims "exp" = some (ClaimValue.num q))
    (h0 : 0 ≤ now) (h1 : (now : ℚ) < q) (h2 : q < (now : ℚ) + 1) :
    validateExpired claims now = Except.error "cannot parse token exp" := by
  have hq0 : (0 : ℚ) ≤ q := le_trans (by exact_mod_cast h0) h1.le
  have hfloor : ⌊q⌋ = now := by
    rw [Int.floor_eq_iff]
    exact ⟨h1.le, by exact_mod_cast h2⟩
  have htr : goInt64 q = now := by rw [goInt64_eq_floor q hq0, hfloor]
  unfold validateExpired
  rw [hq]
  dsimp only
  rw [htr]
  rw [if_neg (lt_irrefl now)]

/-- Witness for C9 at exp = 201/2 = 100.5 and current time 100. -/
theorem validateExpired_truncates_witness :
    validateExpired [("exp", ClaimValue.num qEx)] 100 = Except.error "cannot parse token exp" :=
  validateExpired_truncates [("exp", ClaimValue.num qEx)] qEx 100 (by rfl)
    (by decide) (by norm_num [qEx]) (by norm_num [qEx])

/-- C2 counterexample: for a token whose kid is absent from the key set there
is no UnknownKey failure; the zero-value key entry is taken from the map and
key reconstruction runs on it, producing a public key with modulus 0 and
exponent 0. -/
theorem keyfunc_unknown_kid_reconstructs :
    List.lookup "missing" ([] : List (String × JWKKey)) = none
    ∧ keyfunc [] "RS256" (some (ClaimValue.str "missing")) = KeyfuncResult.pubKey { N := 0, E := 0 } := by
  refine ⟨rfl, by decide⟩

/-- C2 as amended: for every key set and every string kid absent from it, the
keyfunc indexes the map at the absent key, obtains the zero-value entry, and
invokes convertKey on its empty exponent and modulus strings, yielding the
public key with modulus 0 and exponent 0 rather than an error. -/
theorem keyfunc_unknown_kid_zero_key (jwk : List (String × JWKKey)) (kid : String) (alg : String)
    (h : List.lookup kid jwk = none) (ha : isRSAMethod alg = true) :
    keyfunc jwk alg (some (ClaimValue.str kid)) = KeyfuncResult.pubKey { N := 0, E := 0 } := by
  unfold keyfunc
  rw [ha]
  dsimp only
  unfold jwkLookup
  rw [h]
  rw [if_neg (by decide : ¬ (true = false))]
  rfl

/-- Witness for the amended C2 at the empty key set and kid missing. -/
theorem keyfunc_unknown_kid_zero_key_witness :
    keyfunc [] "RS256" (some (ClaimValue.str "nokid")) = KeyfuncResult.pubKey { N := 0, E := 0 } :=
  keyfunc_unknown_kid_zero_key [] "nokid" "RS256" rfl (by decide)

/-- C3 counterexample: a missing exp claim and an expired exp claim do not
produce the same error: the missing case yields the token-is-expired message
while the expired case yields the cannot-parse message. -/
theorem validateExpired_distinct_errors :
    validateExpired [] 100 = Except.error "token is expired"
    ∧ validateExpired [("exp", ClaimValue.num 50)] 100 = Except.error "cannot parse token exp"
    ∧ ("token is expired" : String) ≠ "cannot parse token exp" := by
  refine ⟨rfl, by decide, by decide⟩

/-- C3 as amended: the expiry check succeeds exactly when the claim set holds
a numeric exp claim whose int64 truncation is strictly greater than the
current time, read directly from the system clock (the verification pipeline
is independent of the configured TimeFunc field); a missing exp fails with
the token-is-expired error, while a non-numeric or past-or-equal exp fails
with the distinct cannot-parse error. -/
theorem validateExpired_characterization (claims : Claims) (now : ℤ) :
    (validateExpired claims now = Except.ok ()
      ↔ ∃ q, lookupClaim claims "exp" = some (ClaimValue.num q) ∧ now < goInt64 q)
    ∧ (lookupClaim claims "exp" = none →
        validateExpired claims now = Except.error "token is expired")
    ∧ (∀ q, lookupClaim claims "exp" = some (ClaimValue.num q) → ¬ now < goInt64 q →
        validateExpired claims now = Except.error "cannot parse token exp")
    ∧ (∀ v, lookupClaim claims "exp" = some v → (∀ q, v ≠ ClaimValue.num q) →
        validateExpired claims now = Except.error "cannot parse token exp")
    ∧ (∀ (dec : String → Except String TokenData) (mw : AuthMiddleware)
          (headers : List (String × String)) (f : Option ClockFn),
        middlewareImpl dec { mw with TimeFunc := f } now headers = middlewareImpl dec mw now headers) := by
  refine ⟨?_, ?_, ?_, ?_, ?_⟩
  · unfold validateExpired
    cases h : lookupClaim claims "exp" with
    | none => simp
    | some v =>
      cases v with
      | num q =>
        by_cases hlt : now < goInt64 q
        · simp [hlt]
        · simp [hlt]
      | str s => simp
      | boolean b => simp
  · intro h
    unfold validateExpired
    rw [h]
  · intro q h hlt
    unfold validateExpired
    rw [h]
    dsimp only
    rw [if_neg hlt]
  · intro v h hnum
    unfold validateExpired
    rw [h]
    cases v with
    | num q => exact absurd rfl (hnum q)
    | str s => rfl
    | boolean b => rfl
  · intro dec mw headers f
    rfl

/-- Witness for the amended C3: a future numeric exp passes at time 5, and a
missing exp fails with the token-is-expired error. -/
theorem validateExpired_characterization_witness :
    validateExpired [("exp", ClaimValue.num 10)] 5 = Except.ok ()
    ∧ validateExpired [] 5 = Except.error "token is expired" :=
  ⟨(validateExpired_characterization [("exp", ClaimValue.num 10)] 5).1.mpr
      ⟨10, by rfl, by decide⟩,
   (validateExpired_characterization [] 5).2.1 rfl⟩

/-- C4 counterexample: a token signed with RS384 is not RS256, yet it passes
the signing-method check and proceeds to key lookup and reconstruction
instead of being rejected with the unexpected-signing-method error. -/
theorem keyfunc_accepts_rs384 :
    ("RS384" : String) ≠ "RS256"
    ∧ keyfunc [] "RS384" (some (ClaimValue.str "k")) = KeyfuncResult.pubKey { N := 0, E := 0 } := by
  refine ⟨by decide, by decide⟩

/-- C4 as amended: the signing-method gate rejects with the
unexpected-signing-method error exactly the tokens whose method is outside
the RSA family RS256, RS384, RS512; every RSA-family token, not only RS256,
passes the gate and proceeds to key lookup. -/
theorem keyfunc_rsa_family_gate (jwk : List (String × JWKKey)) (alg : String) (kid : Option ClaimValue) :
    (isRSAMethod alg = false →
      keyfunc jwk alg kid = KeyfuncResult.err ("unexpected signing method: " ++ alg))
    ∧ (isRSAMethod alg = true →
      ∀ m, keyfunc jwk alg kid ≠ KeyfuncResult.err m) := by
  constructor
  · intro h
    unfold keyfunc
    rw [h]
    rfl
  · intro h m hc
    unfold keyfunc at hc
    rw [h] at hc
    dsimp only at hc
    cases kid with
    | none => exact KeyfuncResult.noConfusion hc
    | some v =>
      cases v with
      | str s =>
        dsimp only at hc
        cases hcv : convertKey (jwkLookup jwk s).E (jwkLookup jwk s).N with
        | ok k => rw [hcv] at hc; exact KeyfuncResult.noConfusion hc
        | panicked p => rw [hcv] at hc; exact KeyfuncResult.noConfusion hc
      | num q => exact KeyfuncResult.noConfusion hc
      | boolean b => exact KeyfuncResult.noConfusion hc

/-- Witness for the amended C4: HS256 is rejected with the
unexpected-signing-method error, and RS512 is never rejected with it. -/
theorem keyfunc_rsa_family_gate_witness :
    keyfunc [] "HS256" none = KeyfuncResult.err ("unexpected signing method: " ++ "HS256")
    ∧ keyfunc [] "RS512" none ≠ KeyfuncResult.err "x" :=
  ⟨(keyfunc_rsa_family_gate [] "HS256" none).1 (by decide),
   (keyfunc_rsa_family_gate [] "RS512" none).2 (by decide) "x"⟩

/-- C5: a token whose signature verifies under the key resolved by the
keyfunc and whose iss claim is a string not containing the cognito-idp
marker skips validateAWSJwtClaims entirely and is accepted, whatever the
rest of its claims look like. -/
theorem parse_foreign_issuer_accepted (jwk : List (String × JWKKey)) (region userPoolID : String)
    (now : ℤ) (tok : TokenData) (k : RSAPublicKey)
    (hk : keyfunc jwk tok.alg tok.kid = KeyfuncResult.pubKey k)
    (hs : tok.sigValid = true)
    (issStr : String)
    (hi : lookupClaim tok.claims "iss" = some (ClaimValue.str issStr))
    (hc : containsSub issStr "cognito-idp" = false) :
    parseTok jwk region userPoolID now tok = ParseOutcome.ok tok.claims := by
  unfold parseTok
  rw [hk]
  dsimp only
  rw [hs]
  rw [if_pos rfl]
  unfold parseAfterDecode
  rw [hi]
  dsimp only
  rw [hc]
  rw [if_neg (by decide : ¬ (false = true))]

/-- Witness for C5: a signature-valid token from example.com with an expired
exp and an invalid token_use is accepted, although cognito claim validation
would have rejected it on every check. -/
theorem parse_foreign_issuer_accepted_witness :
    parseTok [] "r" "u" 100 tokForeign = ParseOutcome.ok tokForeign.claims
    ∧ validateAWSJwtClaims tokForeign.claims "r" "u" 100
        = Except.error (claimItemErr "iss" [issShouldBe "r" "u"]) :=
  ⟨parse_foreign_issuer_accepted [] "r" "u" 100 tokForeign { N := 0, E := 0 }
      (by decide) rfl "https://example.com/pool" rfl (by decide),
   by decide⟩

/-- C6: when the token lookup is configured as a header lookup and the named
header is absent or empty, the request is rejected with status 401 and the
exact message auth header empty, and the downstream handler is not
invoked. -/
theorem middleware_empty_header_rejected (dec : String → Except String TokenData)
    (mw : AuthMiddleware) (now : ℤ) (headers : List (String × String))
    (name : String) (rest : List String)
    (hl : goSplit mw.TokenLookup ':' = "header" :: name :: rest)
    (hh : headerGet headers name = "") :
    middlewareImpl dec mw now headers = GateOutcome.reject 401 "auth header empty" := by
  unfold middlewareImpl
  rw [hl]
  dsimp only
  rw [if_pos rfl]
  unfold jwtFromHeader
  rw [hh]
  rw [if_pos rfl]

/-- Witness for C6: the default header lookup with an empty header map. -/
theorem middleware_empty_header_rejected_witness :
    middlewareImpl decFail mwDefault 0 [] = GateOutcome.reject 401 "auth header empty" :=
  middleware_empty_header_rejected decFail mwDefault 0 [] "Authentication" []
    (by decide) rfl

/-- C1 counterexample: three request-reachable inputs produce panics instead
of 401 conversions: a TokenLookup of header with no colon separator panics
with an index-out-of-range fault before extraction, key material with
malformed base64url panics inside convertKey, and a signature-valid token
whose iss claim is a number panics on the unchecked string type
assertion. -/
theorem middleware_panics_exist :
    middlewareImpl decFail mwHeaderNoColon 0 [] = GateOutcome.panicked "runtime error: index out of range"
    ∧ convertKey "!" "AQAB" = ConvertResult.panicked "illegal base64 data"
    ∧ parseAfterDecode [("iss", ClaimValue.num 1)] "r" "u" 0
        = ParseOutcome.panicked "interface conversion: interface is not string" := by
  refine ⟨by decide, by decide, by rfl⟩

/-- C1 as amended: with a well-formed header token lookup, every error
returned by token extraction is converted to a rejection with status exactly
401 carrying the error message verbatim, every error returned by token
verification is likewise converted to a 401 rejection carrying its message
(so error inputs never yield proceed or a panic), and conversely every
rejection the gate emits has status exactly 401 and carries verbatim the
message of an extraction or verification error. -/
theorem middleware_errors_become_401 (dec : String → Except String TokenData)
    (mw : AuthMiddleware) (now : ℤ) (headers : List (String × String))
    (name : String) (rest : List String)
    (hl : goSplit mw.TokenLookup ':' = "header" :: name :: rest) :
    (∀ e, jwtFromHeader headers name = Except.error e →
      middlewareImpl dec mw now headers = GateOutcome.reject 401 e)
    ∧ (∀ s m, jwtFromHeader headers name = Except.ok s → parse dec mw now s = ParseOutcome.err m →
      middlewareImpl dec mw now headers = GateOutcome.reject 401 m)
    ∧ (∀ code msg, middlewareImpl dec mw now headers = GateOutcome.reject code msg →
      code = 401 ∧ (jwtFromHeader headers name = Except.error msg
        ∨ ∃ s, jwtFromHeader headers name = Except.ok s ∧ parse dec mw now s = ParseOutcome.err msg)) := by
  refine ⟨?_, ?_, ?_⟩
  · intro e he
    unfold middlewareImpl
    rw [hl]
    dsimp only
    rw [if_pos rfl]
    rw [he]
  · intro s m hs hm
    unfold middlewareImpl
    rw [hl]
    dsimp only
    rw [if_pos rfl]
    rw [hs]
    dsimp only
    unfold parseToGate
    rw [hm]
  · intro code msg hrun
    unfold middlewareImpl at hrun
    rw [hl] at hrun
    dsimp only at hrun
    rw [if_pos rfl] at hrun
    cases hx : jwtFromHeader headers name with
    | error e =>
      rw [hx] at hrun
      dsimp only at hrun
      injection hrun with h1 h2
      exact ⟨h1.symm, Or.inl (by rw [h2])⟩
    | ok s =>
      rw [hx] at hrun
      dsimp only at hrun
      unfold parseToGate at hrun
      cases hp : parse dec mw now s with
      | ok cl => rw [hp] at hrun; exact GateOutcome.noConfusion hrun
      | err m =>
        rw [hp] at hrun
        dsimp only at hrun
        injection hrun with h1 h2
        exact ⟨h1.symm, Or.inr ⟨s, rfl, h2 ▸ hp⟩⟩
      | panicked m => rw [hp] at hrun; exact GateOutcome.noConfusion hrun

/-- Witness for the amended C1: an extraction error (missing header under the
header:X lookup) and a verification error (decoding failure on a present
header) are each converted to a 401 rejection carrying the exact message. -/
theorem middleware_errors_become_401_witness :
    middlewareImpl decFail mwFull 0 [] = GateOutcome.reject 401 "auth header empty"
    ∧ middlewareImpl decFail mwDefault 0 [("Authentication", "x")]
        = GateOutcome.reject 401 "token contains an invalid number of segments" :=
  ⟨(middleware_errors_become_401 decFail mwFull 0 [] "X" [] (by decide)).1
      "auth header empty" rfl,
   (middleware_errors_become_401 decFail mwDefault 0 [("Authentication", "x")] "Authentication" []
      (by decide)).2.1 "x" "token contains an invalid number of segments" rfl rfl⟩

/-- C10: MiddlewareInit assigns defaults only to the zero-valued fields among
TokenLookup, Timeout, TimeFunc, Unauthorized and Realm, leaves every
already-set field unchanged, never touches the remaining fields, and is
idempotent. -/
theorem middlewareInit_frame_idempotent (mw : AuthMiddleware) :
    (mw.TokenLookup ≠ "" → (MiddlewareInit mw).TokenLookup = mw.TokenLookup)
    ∧ (mw.Timeout ≠ 0 → (MiddlewareInit mw).Timeout = mw.Timeout)
    ∧ (mw.TimeFunc ≠ none → (MiddlewareInit mw).TimeFunc = mw.TimeFunc)
    ∧ (mw.Unauthorized ≠ none → (MiddlewareInit mw).Unauthorized = mw.Unauthorized)
    ∧ (mw.Realm ≠ "" → (MiddlewareInit mw).Realm = mw.Realm)
    ∧ (MiddlewareInit mw).VerifyIssuer = mw.VerifyIssuer
    ∧ (MiddlewareInit mw).Region = mw.Region
    ∧ (MiddlewareInit mw).UserPoolID = mw.UserPoolID
    ∧ (MiddlewareInit mw).Iss = mw.Iss
    ∧ (MiddlewareInit mw).JWK = mw.JWK
    ∧ MiddlewareInit (MiddlewareInit mw) = MiddlewareInit mw := by
  obtain ⟨u, t, tl, tf, r, vi, reg, up, iss, jwk⟩ := mw
  cases tf <;> cases u <;>
    by_cases htl : tl = "" <;> by_cases ht : t = 0 <;> by_cases hr : r = "" <;>
    simp_all [MiddlewareInit, AuthorizationHeader, timeHour]

/-- Witness for C10 on a fully configured instance: every field is kept and a
second initialization changes nothing. -/
theorem middlewareInit_frame_idempotent_witness :
    (MiddlewareInit mwFull).TokenLookup = mwFull.TokenLookup
    ∧ (MiddlewareInit mwFull).Realm = mwFull.Realm
    ∧ MiddlewareInit (MiddlewareInit mwFull) = MiddlewareInit mwFull := by
  have h := middlewareInit_frame_idempotent mwFull
  exact ⟨h.1 (by decide), h.2.2.2.2.1 (by decide), h.2.2.2.2.2.2.2.2.2.2⟩
